import Mathlib

/-!
Verification of the Script Watcher reload core (`script_watcher.py`).

The Python source is shallowly embedded.  A module namespace
(`module.__dict__`) is an association list from names to values;
`sys.modules` is an association-list registry; the process-wide
stdout/stderr redirection performed by `OutputCapture` is modelled by a
pair of destination flags over four explicit stream buffers; and the
combined effect of `open`/`compile`/`exec` on the watched file is
summarised by a `ScriptBehavior` value describing at which phase (if any)
the script raises, what it prints while running, and the namespace its
execution produces.  All embedded functions are total: a Python `except`
branch becomes an ordinary result value, and an uncaught exception is an
explicit outcome constructor.
-/

namespace SW

/-- A module namespace (`module.__dict__`): bindings from names to values. -/
abbrev NS := List (String × Int)

/-- Embeds `hasattr(module_namespace, "main")`. -/
def hasMain (ns : NS) : Bool := ns.any (fun p => p.1 == "main")

/-- A module object as `importlib.util.module_from_spec` produces it and
`exec` fills it: the name the spec was created under, and its dict. -/
structure Module where
  specName : String
  dict : NS
deriving DecidableEq, Repr

/-- The `sys.modules` store: registry from logical names to module objects. -/
abbrev Registry := List (String × Module)

/-- Embeds `del sys.modules[k]` (a no-op when the key is absent, matching the
guarded `if self._mod_name in sys.modules` deletion). -/
def regRemove (r : Registry) (k : String) : Registry :=
  r.filter (fun p => p.1 ≠ k)

/-- Embeds `sys.modules[k] = m` on a registry that does not yet hold `k`
(the source deletes the key first). -/
def regSet (r : Registry) (k : String) (m : Module) : Registry :=
  regRemove r k ++ [(k, m)]

/-- Embeds `sys.modules.get(k)`. -/
def regGet : Registry → String → Option Module
  | [], _ => none
  | p :: r, k => if p.1 == k then some p.2 else regGet r k

/-- Where `sys.stdout` / `sys.stderr` currently point: the original
process destination or an `OutputCapture` buffer. -/
inductive Dest
  | original
  | captured
deriving DecidableEq, Repr

/-- The process output state: the original stdout/stderr destinations
(the host console), the capture buffers of the one active
`OutputCapture` (the driver serialises captures, so one pair suffices),
and what `sys.stdout` / `sys.stderr` currently point at. -/
structure Streams where
  origOut : List String
  origErr : List String
  capOut : List String
  capErr : List String
  outDest : Dest
  errDest : Dest
deriving DecidableEq, Repr

/-- A fresh process output state: empty console, no redirection. -/
def Streams.empty : Streams := ⟨[], [], [], [], .original, .original⟩

/-- Embeds `print(m)`: append a line to whatever `sys.stdout` points at. -/
def Streams.writeOut (st : Streams) (m : String) : Streams :=
  match st.outDest with
  | .original => { st with origOut := st.origOut ++ [m] }
  | .captured => { st with capOut := st.capOut ++ [m] }

/-- A write to whatever `sys.stderr` points at (e.g. `traceback.print_exc`). -/
def Streams.writeErr (st : Streams) (m : String) : Streams :=
  match st.errDest with
  | .original => { st with origErr := st.origErr ++ [m] }
  | .captured => { st with capErr := st.capErr ++ [m] }

/-- Several stdout lines in order. -/
def Streams.writeOuts (st : Streams) (ms : List String) : Streams :=
  ms.foldl Streams.writeOut st

/-- Several stderr lines in order. -/
def Streams.writeErrs (st : Streams) (ms : List String) : Streams :=
  ms.foldl Streams.writeErr st

/-- The contents of the stream `sys.stderr` currently points at. -/
def Streams.curErr (st : Streams) : List String :=
  match st.errDest with
  | .original => st.origErr
  | .captured => st.capErr

/-- What happens when `load_module` processes the watched file: at which
phase (if any) an exception is raised, what the script writes to the
current stdout/stderr while running, and the namespace execution leaves
behind.  `completes` additionally records whether a `main()` call, were
one made, would raise (`mainTrace = some t`). -/
inductive ScriptBehavior
  | specNone
  | raisesOnRead (trace : String)
  | raisesOnCompile (trace : String)
  | raisesOnExec (out errOut : List String) (nsSoFar : NS) (trace : String)
  | completes (out errOut : List String) (ns : NS) (mainTrace : Option String)
deriving DecidableEq, Repr

/-- The watched file as the loader observes it: `os.path.isfile`,
`os.path.getmtime` (`none` = the call raises `OSError`), and the
behavior of reading/compiling/executing its current content. -/
structure FS where
  isfile : Bool
  mtime : Option Nat
  behavior : ScriptBehavior
deriving DecidableEq, Repr

/-- Embeds `os.path.splitext(filename)[0]` (root without the final extension;
a dot inside the leading run of dots starts no extension, as in
CPython's `posixpath.splitext`). -/
def splitextRoot (fn : String) : String :=
  let cs := fn.toList
  let extLen := (cs.reverse.takeWhile (fun c => c ≠ '.')).length
  if extLen = cs.length then fn
  else
    let rootLen := cs.length - extLen - 1
    if (cs.take rootLen).all (fun c => c == '.') then fn
    else String.mk (cs.take rootLen)

/-- Embeds `ScriptWatcherLoader._get_mod_name`: the directory's base name when
the file is `__init__.py`, else the file stem.  `os.path.split` /
`os.path.basename` are modelled on `/`-separated absolute paths. -/
def get_mod_name (filepath : String) : String :=
  let parts := filepath.splitOn "/"
  let filename := parts.getLastD ""
  if filename == "__init__.py" then parts.dropLast.getLastD ""
  else splitextRoot filename

/-- The `ScriptWatcherLoader` instance state: the (absolute) file path, the
`run_main` mode flag, the module of the most recent load attempt
(`self.module`, initially `None`), the last-seen modification time
(`self._last_mtime`, initially `0`), and the derived logical module name
(`self._mod_name`). -/
structure ScriptWatcherLoader where
  filepath : String
  run_main : Bool
  module : Option Module
  last_mtime : Nat
  mod_name : String
deriving DecidableEq, Repr

/-- Embeds `ScriptWatcherLoader.__init__(filepath, run_main)`.  `os.path.abspath`
is the host's path normalisation; paths here are taken to be already
absolute, on which it is the identity. -/
def ScriptWatcherLoader.create (filepath : String) (run_main : Bool) :
    ScriptWatcherLoader :=
  { filepath := filepath
    run_main := run_main
    module := none
    last_mtime := 0
    mod_name := get_mod_name filepath }

/-- The name `load_module` hands to `spec_from_file_location`:
`self._mod_name if self.run_main else "__main__"`. -/
def specNameOf (ld : ScriptWatcherLoader) : String :=
  if ld.run_main then ld.mod_name else "__main__"

/-- Observable events of one load attempt: the script's top-level body
started executing, and `main()` was invoked. -/
inductive Event
  | execBody
  | callMain
deriving DecidableEq, Repr

/-- The full outcome of one `load_module` / `check_reload` call: the
updated loader, registry and stream state, the events of the attempt,
and the returned boolean. -/
structure LoadOutcome where
  loader : ScriptWatcherLoader
  modules : Registry
  streams : Streams
  events : List Event
  ok : Bool
deriving DecidableEq, Repr

/-- The `except Exception` branch of `load_module`: print
`"Error loading {filepath}:"` to the current stdout, the traceback to the
current stderr, and return `False`. -/
def loadFail (ld : ScriptWatcherLoader) (mods : Registry) (st : Streams)
    (evs : List Event) (trace : String) : LoadOutcome :=
  let st1 := st.writeOut ("Error loading " ++ ld.filepath ++ ":")
  let st2 := st1.writeErr trace
  ⟨ld, mods, st2, evs, false⟩

/-- Embeds `ScriptWatcherLoader.load_module`, line by line: delete the old
registry entry; create the spec (raising `ImportError` when it is
`None`); build a fresh module object, store it in `self.module` and
register it in `sys.modules` — both *before* execution; read, compile
and execute the file into the module's dict (which `self.module` and the
registry entry alias, so a partial execution is visible through both);
call `main` when `run_main` is set and the module has one; on success
record the file's current mtime and return `True`; any exception is
caught and turned into a `False` result. -/
def ScriptWatcherLoader.load_module (ld : ScriptWatcherLoader) (fs : FS)
    (mods : Registry) (st : Streams) : LoadOutcome :=
  let mods1 := regRemove mods ld.mod_name
  match fs.behavior with
  | .specNone =>
      loadFail ld mods1 st []
        ("ImportError: Could not create spec for " ++ ld.filepath)
  | .raisesOnRead tr =>
      let m0 : Module := ⟨specNameOf ld, []⟩
      loadFail { ld with module := some m0 } (regSet mods1 ld.mod_name m0) st [] tr
  | .raisesOnCompile tr =>
      let m0 : Module := ⟨specNameOf ld, []⟩
      loadFail { ld with module := some m0 } (regSet mods1 ld.mod_name m0) st [] tr
  | .raisesOnExec out errOut nsSoFar tr =>
      let m1 : Module := ⟨specNameOf ld, nsSoFar⟩
      let st1 := (st.writeOuts out).writeErrs errOut
      loadFail { ld with module := some m1 } (regSet mods1 ld.mod_name m1) st1
        [.execBody] tr
  | .completes out errOut ns mainTrace =>
      let m1 : Module := ⟨specNameOf ld, ns⟩
      let ld1 := { ld with module := some m1 }
      let mods2 := regSet mods1 ld.mod_name m1
      let st1 := (st.writeOuts out).writeErrs errOut
      if ld.run_main && hasMain ns then
        match mainTrace with
        | some tr => loadFail ld1 mods2 st1 [.execBody, .callMain] tr
        | none =>
            match fs.mtime with
            | none =>
                loadFail ld1 mods2 st1 [.execBody, .callMain]
                  "OSError: getmtime failed"
            | some t =>
                ⟨{ ld1 with last_mtime := t }, mods2, st1,
                  [.execBody, .callMain], true⟩
      else
        match fs.mtime with
        | none => loadFail ld1 mods2 st1 [.execBody] "OSError: getmtime failed"
        | some t => ⟨{ ld1 with last_mtime := t }, mods2, st1, [.execBody], true⟩

/-- Embeds `ScriptWatcherLoader.check_reload`: read the current mtime (an
`OSError` is swallowed by `except OSError: pass`), call `load_module`
exactly when it is strictly greater than the last-seen value, and
return `False` otherwise. -/
def ScriptWatcherLoader.check_reload (ld : ScriptWatcherLoader) (fs : FS)
    (mods : Registry) (st : Streams) : LoadOutcome :=
  match fs.mtime with
  | none => ⟨ld, mods, st, [], false⟩
  | some cur =>
      if ld.last_mtime < cur then ld.load_module fs mods st
      else ⟨ld, mods, st, [], false⟩

/-- An `OutputCapture` object: `__init__` remembers the current
`sys.stdout` / `sys.stderr` destinations (`self._stdout`,
`self._stderr`) and allocates fresh buffers. -/
structure OutputCapture where
  savedOut : Dest
  savedErr : Dest
deriving DecidableEq, Repr

/-- Embeds `OutputCapture.__init__`: remember the current destinations and start
with fresh empty buffers. -/
def OutputCapture.create (st : Streams) : OutputCapture × Streams :=
  (⟨st.outDest, st.errDest⟩, { st with capOut := [], capErr := [] })

/-- Embeds `OutputCapture.__enter__`: point `sys.stdout` / `sys.stderr` at the
buffers. -/
def OutputCapture.enter (_c : OutputCapture) (st : Streams) : Streams :=
  { st with outDest := .captured, errDest := .captured }

/-- Embeds `OutputCapture.__exit__`: unconditionally reinstall the remembered
destinations (it runs on both the normal and the exceptional exit of a
`with` block, and never suppresses the exception). -/
def OutputCapture.exit (c : OutputCapture) (st : Streams) : Streams :=
  { st with outDest := c.savedOut, errDest := c.savedErr }

/-- Embeds `OutputCapture.get_output`: the accumulated buffer texts. -/
def OutputCapture.get_output (_c : OutputCapture) (st : Streams) :
    List String × List String :=
  (st.capOut, st.capErr)

/-- Whether the guarded block of a `with` statement completed or raised. -/
inductive BodyOutcome
  | completes
  | raises (trace : String)
deriving DecidableEq, Repr

/-- Embeds `with OutputCapture() as cap: body` — construct, enter, run the body
(which may itself change any stream state and may raise), then run
`__exit__` on whichever path was taken; the body's outcome (including a
raised exception) propagates afterwards. -/
def withOutputCapture (st : Streams) (body : Streams → Streams × BodyOutcome) :
    Streams × BodyOutcome :=
  let (cap, st0) := OutputCapture.create st
  let st1 := cap.enter st0
  let (st2, r) := body st1
  (cap.exit st2, r)

/-- The `SW_Settings` property group (the fields the operators read or
write; `use_py_console` and `auto_watch_on_startup` are declared in the
source with the shown defaults). -/
structure SW_Settings where
  running : Bool
  reload : Bool
  filepath : String
  use_py_console : Bool
  auto_watch_on_startup : Bool
  run_main : Bool
deriving DecidableEq, Repr

/-- The driver's state: the scene settings, whether `SW_OT_WatchStart`
has a registered timer (`self._timer`), its loader (`self.loader`,
`None` before `execute` ran), plus the shared `sys.modules` registry and
process stream state. -/
structure DriverState where
  settings : SW_Settings
  timer : Bool
  loader : Option ScriptWatcherLoader
  mods : Registry
  streams : Streams
deriving DecidableEq, Repr

/-- Operator return statuses, plus `raisedError` for an exception
escaping the handler (reachable in the source only when `self.loader` is
still `None`). -/
inductive ModalResult
  | cancelled
  | passThrough
  | runningModal
  | finished
  | raisedError
deriving DecidableEq, Repr

/-- The event kinds `modal` distinguishes: a timer event or anything
else. -/
inductive EventType
  | timerEvt
  | otherEvt
deriving DecidableEq, Repr

/-- Embeds `SW_OT_WatchStart.cancel`: remove the timer if one is registered and
clear the `running` flag. -/
def SW_OT_WatchStart_cancel (d : DriverState) : DriverState :=
  { d with timer := false, settings := { d.settings with running := false } }

/-- Embeds `SW_OT_WatchStart.modal`: when `running` has been cleared, cancel and
return `CANCELLED` before any load work; on a timer event, either
consume the one-shot `reload` flag and call `load_module`
unconditionally, or call `check_reload` — in both branches inside a
`with OutputCapture() as cap:` block whose captured text is never read
(`cap.get_output()` is not called and `use_py_console` is not
consulted); finally return `PASS_THROUGH`. -/
def SW_OT_WatchStart_modal (d : DriverState) (fs : FS) (ev : EventType) :
    DriverState × ModalResult × List Event :=
  if d.settings.running = false then
    (SW_OT_WatchStart_cancel d, .cancelled, [])
  else if ev = .timerEvt then
    if d.settings.reload then
      let sets := { d.settings with reload := false }
      match d.loader with
      | none => ({ d with settings := sets }, .raisedError, [])
      | some ld =>
          let (cap, st0) := OutputCapture.create d.streams
          let r := ld.load_module fs d.mods (cap.enter st0)
          ({ d with
              settings := sets
              loader := some r.loader
              mods := r.modules
              streams := cap.exit r.streams },
            .passThrough, r.events)
    else
      match d.loader with
      | none => (d, .raisedError, [])
      | some ld =>
          let (cap, st0) := OutputCapture.create d.streams
          let r := ld.check_reload fs d.mods (cap.enter st0)
          ({ d with
              loader := some r.loader
              mods := r.modules
              streams := cap.exit r.streams },
            .passThrough, r.events)
  else
    (d, .passThrough, [])

/-- Embeds `SW_OT_WatchStart.execute`: `CANCELLED` without changes when already
running; report "Script file not found" and `CANCELLED` without changes
when the resolved path is not a file; otherwise build a fresh loader and
run one synchronous initial `load_module` under `OutputCapture` — on
failure return `CANCELLED` with no timer and `running` still false, on
success register the timer, set `running` and return `RUNNING_MODAL`.
The third component lists the `self.report({'ERROR'}, ...)` messages. -/
def SW_OT_WatchStart_execute (d : DriverState) (fs : FS) :
    DriverState × ModalResult × List String :=
  if d.settings.running then (d, .cancelled, [])
  else if fs.isfile = false then (d, .cancelled, ["Script file not found"])
  else
    let ld := ScriptWatcherLoader.create d.settings.filepath d.settings.run_main
    let (cap, st0) := OutputCapture.create d.streams
    let r := ld.load_module fs d.mods (cap.enter st0)
    let d1 := { d with
                loader := some r.loader
                mods := r.modules
                streams := cap.exit r.streams }
    if r.ok = false then (d1, .cancelled, [])
    else
      ({ d1 with
          timer := true
          settings := { d1.settings with running := true } },
        .runningModal, [])

/-- Embeds `SW_OT_WatchEnd.execute`: clear the `running` flag and return
`FINISHED`. -/
def SW_OT_WatchEnd_execute (d : DriverState) : DriverState × ModalResult :=
  ({ d with settings := { d.settings with running := false } }, .finished)

/-- Embeds `SW_OT_Reload.execute`: set the one-shot `reload` flag and return
`FINISHED`. -/
def SW_OT_Reload_execute (d : DriverState) : DriverState × ModalResult :=
  ({ d with settings := { d.settings with reload := true } }, .finished)

/-- The stimuli the host can deliver to the driver: a timer tick routed
to `modal`, a stop request (`SW_OT_WatchEnd`), a manual reload request
(`SW_OT_Reload`). -/
inductive HostEvent
  | tickTimer
  | pressStop
  | pressReload
deriving DecidableEq, Repr

/-- One host stimulus applied to the driver state, with the load events
it caused. -/
def hostStep (fs : FS) (d : DriverState) (e : HostEvent) :
    DriverState × List Event :=
  match e with
  | .tickTimer =>
      ((SW_OT_WatchStart_modal d fs .timerEvt).1,
        (SW_OT_WatchStart_modal d fs .timerEvt).2.2)
  | .pressStop => ((SW_OT_WatchEnd_execute d).1, [])
  | .pressReload => ((SW_OT_Reload_execute d).1, [])

/-- A sequence of host stimuli, collecting all load events in order. -/
def runEvents (fs : FS) (d : DriverState) : List HostEvent →
    DriverState × List Event
  | [] => (d, [])
  | e :: rest =>
      ((runEvents fs (hostStep fs d e).1 rest).1,
        (hostStep fs d e).2 ++ (runEvents fs (hostStep fs d e).1 rest).2)

/-- Whether a `load_module` call on this loader and file would return
`True` (`load_module`'s boolean result does not depend on the registry
or stream state; see `load_ok_indep`). -/
def loadSucceeds (ld : ScriptWatcherLoader) (fs : FS) : Bool :=
  (ld.load_module fs [] Streams.empty).ok

/-! ### Concrete example states, used to instantiate the theorems -/

/-- A module left by a previous successful load of `x = 1`. -/
def exMod : Module := ⟨"__main__", [("x", 1)]⟩

/-- A loader that already performed a successful load (mtime 3). -/
def exLoader : ScriptWatcherLoader :=
  { filepath := "/tmp/s.py"
    run_main := false
    module := some exMod
    last_mtime := 3
    mod_name := "s" }

/-- The watched file after an edit (mtime 7) whose execution raises
after rebinding `x`. -/
def exFsBoom : FS := ⟨true, some 7, .raisesOnExec [] [] [("x", 2)] "Boom"⟩

/-- The watched file after an edit (mtime 9) that prints and completes. -/
def exFsGood : FS := ⟨true, some 9, .completes ["hello"] [] [("x", 2)] none⟩

/-- The watched file unchanged (mtime still 3), content fine. -/
def exFsSame : FS := ⟨true, some 3, .completes [] [] [("x", 2)] none⟩

/-- A driver state that is watching: running, no pending reload request,
`use_py_console` enabled, one line already on the host console. -/
def exDriver : DriverState :=
  { settings := ⟨true, false, "/tmp/s.py", true, false, false⟩
    timer := true
    loader := some exLoader
    mods := [("s", exMod)]
    streams := ⟨["host line"], [], [], [], .original, .original⟩ }

/-- A driver state after a stop request: `running` already false. -/
def exStopped : DriverState :=
  { exDriver with settings := { exDriver.settings with running := false } }

/-! ### Helper lemmas -/

theorem regGet_regSet (r : Registry) (k : String) (m : Module) :
    regGet (regSet r k m) k = some m := by
  have h : ∀ l : Registry, (∀ p ∈ l, p.1 ≠ k) →
      regGet (l ++ [(k, m)]) k = some m := by
    intro l
    induction l with
    | nil => intro _; simp [regGet]
    | cons a l ih =>
        intro hl
        have ha : ¬ (a.1 == k) = true := by
          simpa using hl a (by simp)
        rw [List.cons_append]
        simp only [regGet, ha, if_false, Bool.false_eq_true]
        exact ih fun p hp => hl p (by simp [hp])
  unfold regSet regRemove
  exact h _ fun p hp => by simpa using List.of_mem_filter hp

theorem writeOuts_cons (st : Streams) (m : String) (ms : List String) :
    st.writeOuts (m :: ms) = (st.writeOut m).writeOuts ms := rfl

theorem writeErrs_cons (st : Streams) (m : String) (ms : List String) :
    st.writeErrs (m :: ms) = (st.writeErr m).writeErrs ms := rfl

theorem curErr_writeOut (st : Streams) (m : String) :
    (st.writeOut m).curErr = st.curErr := by
  cases st with
  | mk oO oE cO cE od ed => cases od <;> cases ed <;> rfl

theorem curErr_writeErr (st : Streams) (m : String) :
    (st.writeErr m).curErr = st.curErr ++ [m] := by
  cases st with
  | mk oO oE cO cE od ed => cases ed <;> rfl

theorem curErr_writeOuts (ms : List String) (st : Streams) :
    (st.writeOuts ms).curErr = st.curErr := by
  induction ms generalizing st with
  | nil => rfl
  | cons m ms ih => rw [writeOuts_cons, ih, curErr_writeOut]

theorem curErr_writeErrs (ms : List String) (st : Streams) :
    (st.writeErrs ms).curErr = st.curErr ++ ms := by
  induction ms generalizing st with
  | nil => simp [Streams.writeErrs]
  | cons m ms ih =>
      rw [writeErrs_cons, ih, curErr_writeErr]
      simp

theorem curErr_loadFail (ld : ScriptWatcherLoader) (mods : Registry)
    (st : Streams) (evs : List Event) (tr : String) :
    (loadFail ld mods st evs tr).streams.curErr = st.curErr ++ [tr] := by
  unfold loadFail
  rw [curErr_writeErr, curErr_writeOut]

/-- The boolean result of `load_module` does not depend on the registry
or the stream state. -/
theorem load_ok_indep (ld : ScriptWatcherLoader) (fs : FS)
    (mods mods' : Registry) (st st' : Streams) :
    (ld.load_module fs mods st).ok = (ld.load_module fs mods' st').ok := by
  rcases fs with ⟨isf, mt, beh⟩
  cases beh with
  | specNone => rfl
  | raisesOnRead tr => rfl
  | raisesOnCompile tr => rfl
  | raisesOnExec out errOut nsSoFar tr => rfl
  | completes out errOut ns mtr =>
      dsimp only [ScriptWatcherLoader.load_module]
      by_cases h : (ld.run_main && hasMain ns) = true
      · simp only [h, if_true]
        cases mtr <;> cases mt <;> rfl
      · simp only [h, if_false, Bool.false_eq_true]
        cases mt <;> rfl

/-! ### Claim theorems -/

/-- C7: `OutputCapture` restores the process-wide output and error
destinations on every exit path — for every initial stream state and
every guarded body (including one that raises, and even one that itself
retargets the streams), after the `with` block the previously remembered
stdout and stderr destinations are reinstalled, so subsequent writes go
to the original destinations, not the capture buffers. -/
theorem c7_output_capture_restores (st : Streams)
    (body : Streams → Streams × BodyOutcome) :
    (withOutputCapture st body).1.outDest = st.outDest ∧
    (withOutputCapture st body).1.errDest = st.errDest := by
  unfold withOutputCapture OutputCapture.create OutputCapture.enter
    OutputCapture.exit
  exact ⟨rfl, rfl⟩

/-- C1 counterexample: a loader holding the module of a previous
successful load of `x = 1` runs `load_module` on a file whose execution
raises after rebinding `x` to `2`.  The load fails as required, but both
the loader's module reference and the `sys.modules` entry under the
logical name now hold the partially-executed attempt, not the previous
namespace — refuting the claimed atomicity. -/
theorem c1_load_not_atomic_cex :
    (exLoader.load_module exFsBoom [("s", exMod)] Streams.empty).ok = false ∧
    ¬ ((exLoader.load_module exFsBoom [("s", exMod)] Streams.empty).loader.module
        = some exMod) ∧
    ¬ (regGet (exLoader.load_module exFsBoom [("s", exMod)] Streams.empty).modules "s"
        = some exMod) := by
  decide

/-- C1 (amended): for every loader state, if `load_module` fails because
execution of the script raises, a failure result is returned and the
last-seen modification time is unchanged, but atomicity does not hold:
the loader's module reference and the global registry entry under the
logical name have already been replaced and afterwards hold the
partially-executed attempt's module (the previous module object itself
is not mutated, merely dereferenced). -/
theorem c1_failed_load_keeps_mtime_but_replaces_module
    (ld : ScriptWatcherLoader) (fs : FS) (mods : Registry) (st : Streams)
    (out errOut : List String) (nsSoFar : NS) (tr : String)
    (hb : fs.behavior = .raisesOnExec out errOut nsSoFar tr) :
    (ld.load_module fs mods st).ok = false ∧
    (ld.load_module fs mods st).loader.last_mtime = ld.last_mtime ∧
    (ld.load_module fs mods st).loader.module = some ⟨specNameOf ld, nsSoFar⟩ ∧
    regGet (ld.load_module fs mods st).modules ld.mod_name =
      some ⟨specNameOf ld, nsSoFar⟩ := by
  rcases fs with ⟨isf, mt, beh⟩
  cases hb
  dsimp only [ScriptWatcherLoader.load_module, loadFail]
  exact ⟨rfl, rfl, rfl, regGet_regSet _ _ _⟩

/-- C1 witness: the amended statement at the counterexample's input. -/
theorem c1_witness :
    (exLoader.load_module exFsBoom [("s", exMod)] Streams.empty).ok = false ∧
    (exLoader.load_module exFsBoom [("s", exMod)] Streams.empty).loader.last_mtime
      = exLoader.last_mtime ∧
    (exLoader.load_module exFsBoom [("s", exMod)] Streams.empty).loader.module
      = some ⟨specNameOf exLoader, [("x", 2)]⟩ ∧
    regGet (exLoader.load_module exFsBoom [("s", exMod)] Streams.empty).modules
      exLoader.mod_name = some ⟨specNameOf exLoader, [("x", 2)]⟩ :=
  c1_failed_load_keeps_mtime_but_replaces_module exLoader exFsBoom
    [("s", exMod)] Streams.empty [] [] [("x", 2)] "Boom" rfl

/-- C4: `check_reload` invokes `load_module` and returns its result
exactly when the current modification time is strictly greater than the
last-seen value; with an equal or smaller mtime, or when the mtime read
raises `OSError`, it performs no load, changes nothing, and returns
`False` — so ticking with no intervening file write never re-executes
the script. -/
theorem c4_check_reload_gate
    (ld : ScriptWatcherLoader) (fs : FS) (mods : Registry) (st : Streams) :
    (fs.mtime = none →
      ld.check_reload fs mods st = ⟨ld, mods, st, [], false⟩) ∧
    (∀ t, fs.mtime = some t → t ≤ ld.last_mtime →
      ld.check_reload fs mods st = ⟨ld, mods, st, [], false⟩) ∧
    (∀ t, fs.mtime = some t → ld.last_mtime < t →
      ld.check_reload fs mods st = ld.load_module fs mods st) := by
  rcases fs with ⟨isf, mt, beh⟩
  refine ⟨fun h => ?_, fun t h hle => ?_, fun t h hlt => ?_⟩
  · cases h
    rfl
  · cases h
    dsimp only [ScriptWatcherLoader.check_reload]
    rw [if_neg (by omega)]
  · cases h
    dsimp only [ScriptWatcherLoader.check_reload]
    rw [if_pos hlt]

/-- C4 witness: an unchanged mtime short-circuits; a larger one forwards
to `load_module`. -/
theorem c4_witness :
    exLoader.check_reload exFsSame [] Streams.empty
      = ⟨exLoader, [], Streams.empty, [], false⟩ ∧
    exLoader.check_reload exFsGood [] Streams.empty
      = exLoader.load_module exFsGood [] Streams.empty :=
  ⟨(c4_check_reload_gate exLoader exFsSame [] Streams.empty).2.1 3 rfl
      (by decide),
    (c4_check_reload_gate exLoader exFsGood [] Streams.empty).2.2 9 rfl
      (by decide)⟩

/-- C10: a newly constructed loader has `_last_mtime = 0` and no module,
so its first `check_reload` on any file whose mtime reads back positive
performs the full `load_module`, even though nothing was loaded before
and the file did not change since construction. -/
theorem c10_initial_mtime_zero_loads
    (fp : String) (rm : Bool) (fs : FS) (mods : Registry) (st : Streams)
    (t : Nat) (hm : fs.mtime = some t) (ht : 0 < t) :
    (ScriptWatcherLoader.create fp rm).last_mtime = 0 ∧
    (ScriptWatcherLoader.create fp rm).module = none ∧
    (ScriptWatcherLoader.create fp rm).check_reload fs mods st =
      (ScriptWatcherLoader.create fp rm).load_module fs mods st := by
  refine ⟨rfl, rfl, ?_⟩
  rcases fs with ⟨isf, mt, beh⟩
  cases hm
  dsimp only [ScriptWatcherLoader.check_reload, ScriptWatcherLoader.create]
  rw [if_pos ht]

/-- C10 witness: the first `check_reload` of a fresh loader on the
existing file performs the load. -/
theorem c10_witness :
    (ScriptWatcherLoader.create "/tmp/s.py" false).last_mtime = 0 ∧
    (ScriptWatcherLoader.create "/tmp/s.py" false).module = none ∧
    (ScriptWatcherLoader.create "/tmp/s.py" false).check_reload exFsGood []
        Streams.empty =
      (ScriptWatcherLoader.create "/tmp/s.py" false).load_module exFsGood []
        Streams.empty :=
  c10_initial_mtime_zero_loads "/tmp/s.py" false exFsGood [] Streams.empty 9
    rfl (by decide)

/-- C3: `load_module` never lets an error propagate (it is a total
function into `LoadOutcome`): whenever it returns `False` the last-seen
modification time is unchanged and the error trace has been written,
last, to the stream `sys.stderr` currently points at; whenever it
returns `True` the recorded last-seen mtime is the file's current one;
and when read, compile, execution and the optional `main` call all
complete and the final mtime read succeeds, it does return `True` with
that mtime recorded. -/
theorem c3_load_module_error_containment
    (ld : ScriptWatcherLoader) (fs : FS) (mods : Registry) (st : Streams)
    (r : LoadOutcome) (hr : r = ld.load_module fs mods st) :
    (r.ok = false →
      r.loader.last_mtime = ld.last_mtime ∧
      ∃ ms tr, r.streams.curErr = st.curErr ++ ms ++ [tr]) ∧
    (r.ok = true → fs.mtime = some r.loader.last_mtime) ∧
    (∀ out errOut ns t, fs.behavior = .completes out errOut ns none →
      fs.mtime = some t → r.ok = true ∧ r.loader.last_mtime = t) := by
  subst hr
  rcases fs with ⟨isf, mt, beh⟩
  cases beh with
  | specNone =>
      dsimp only [ScriptWatcherLoader.load_module, loadFail]
      refine ⟨fun _ => ⟨rfl, [],
        "ImportError: Could not create spec for " ++ ld.filepath, ?_⟩,
        fun hok => ?_, fun o e n t hb _ => ?_⟩
      · rw [curErr_writeErr, curErr_writeOut]
        simp
      · simp at hok
      · simp at hb
  | raisesOnRead tr =>
      dsimp only [ScriptWatcherLoader.load_module, loadFail]
      refine ⟨fun _ => ⟨rfl, [], tr, ?_⟩, fun hok => ?_, fun o e n t hb _ => ?_⟩
      · rw [curErr_writeErr, curErr_writeOut]
        simp
      · simp at hok
      · simp at hb
  | raisesOnCompile tr =>
      dsimp only [ScriptWatcherLoader.load_module, loadFail]
      refine ⟨fun _ => ⟨rfl, [], tr, ?_⟩, fun hok => ?_, fun o e n t hb _ => ?_⟩
      · rw [curErr_writeErr, curErr_writeOut]
        simp
      · simp at hok
      · simp at hb
  | raisesOnExec sOut sErr sNs tr =>
      dsimp only [ScriptWatcherLoader.load_module, loadFail]
      refine ⟨fun _ => ⟨rfl, sErr, tr, ?_⟩, fun hok => ?_, fun o e n t hb _ => ?_⟩
      · rw [curErr_writeErr, curErr_writeOut, curErr_writeErrs, curErr_writeOuts]
      · simp at hok
      · simp at hb
  | completes sOut sErr sNs sMtr =>
      dsimp only [ScriptWatcherLoader.load_module, loadFail]
      by_cases hflag : (ld.run_main && hasMain sNs) = true
      · rw [if_pos hflag]
        cases sMtr with
        | some trm =>
            refine ⟨fun _ => ⟨rfl, sErr, trm, ?_⟩, fun hok => ?_,
              fun o e n t hb _ => ?_⟩
            · rw [curErr_writeErr, curErr_writeOut, curErr_writeErrs,
                curErr_writeOuts]
            · simp at hok
            · simp at hb
        | none =>
            cases mt with
            | none =>
                refine ⟨fun _ => ⟨rfl, sErr, "OSError: getmtime failed", ?_⟩,
                  fun hok => ?_, fun o e n t _ hm => ?_⟩
                · rw [curErr_writeErr, curErr_writeOut, curErr_writeErrs,
                    curErr_writeOuts]
                · simp at hok
                · simp at hm
            | some t0 =>
                refine ⟨fun hok => ?_, fun _ => rfl, fun o e n t _ hm => ?_⟩
                · simp at hok
                · cases hm
                  exact ⟨rfl, rfl⟩
      · rw [if_neg hflag]
        cases mt with
        | none =>
            refine ⟨fun _ => ⟨rfl, sErr, "OSError: getmtime failed", ?_⟩,
              fun hok => ?_, fun o e n t _ hm => ?_⟩
            · rw [curErr_writeErr, curErr_writeOut, curErr_writeErrs,
                curErr_writeOuts]
            · simp at hok
            · simp at hm
        | some t0 =>
            refine ⟨fun hok => ?_, fun _ => rfl, fun o e n t _ hm => ?_⟩
            · simp at hok
            · cases hm
              exact ⟨rfl, rfl⟩

/-- C3 witness: the statement instantiated at a loader with a previous
load and a file whose execution raises. -/
theorem c3_witness :
    (exLoader.load_module exFsBoom [] Streams.empty).loader.last_mtime
      = exLoader.last_mtime ∧
    ∃ ms tr, (exLoader.load_module exFsBoom [] Streams.empty).streams.curErr
      = Streams.empty.curErr ++ ms ++ [tr] :=
  (c3_load_module_error_containment exLoader exFsBoom [] Streams.empty _
    rfl).1 (by decide)

/-- C8: `main` is invoked exactly when `run_main` is set and the executed
namespace defines an attribute named `main`, and then exactly once,
after the top-level body's execution event; with the flag off, or with
`main` absent, or when execution does not complete, it is invoked zero
times. -/
theorem c8_entrypoint_iff
    (ld : ScriptWatcherLoader) (fs : FS) (mods : Registry) (st : Streams)
    (r : LoadOutcome) (hr : r = ld.load_module fs mods st) :
    (Event.callMain ∈ r.events ↔
      ∃ out errOut ns mtr, fs.behavior = .completes out errOut ns mtr ∧
        ld.run_main = true ∧ hasMain ns = true) ∧
    (∀ out errOut ns mtr, fs.behavior = .completes out errOut ns mtr →
      r.events = if ld.run_main && hasMain ns
        then [Event.execBody, Event.callMain] else [Event.execBody]) := by
  subst hr
  rcases fs with ⟨isf, mt, beh⟩
  cases beh with
  | specNone =>
      dsimp only [ScriptWatcherLoader.load_module, loadFail]
      simp
  | raisesOnRead tr =>
      dsimp only [ScriptWatcherLoader.load_module, loadFail]
      simp
  | raisesOnCompile tr =>
      dsimp only [ScriptWatcherLoader.load_module, loadFail]
      simp
  | raisesOnExec sOut sErr sNs tr =>
      dsimp only [ScriptWatcherLoader.load_module, loadFail]
      simp
  | completes sOut sErr sNs sMtr =>
      dsimp only [ScriptWatcherLoader.load_module, loadFail]
      by_cases hflag : (ld.run_main && hasMain sNs) = true
      · rw [if_pos hflag]
        obtain ⟨h1, h2⟩ := Bool.and_eq_true_iff.mp hflag
        cases sMtr with
        | some trm =>
            refine ⟨⟨fun _ => ⟨sOut, sErr, sNs, some trm, rfl, h1, h2⟩,
              fun _ => by simp⟩, ?_⟩
            intro o e n m h
            injection h with ho he hn hm
            subst hn
            rw [if_pos hflag]
        | none =>
            cases mt with
            | none =>
                refine ⟨⟨fun _ => ⟨sOut, sErr, sNs, none, rfl, h1, h2⟩,
                  fun _ => by simp⟩, ?_⟩
                intro o e n m h
                injection h with ho he hn hm
                subst hn
                rw [if_pos hflag]
            | some t0 =>
                refine ⟨⟨fun _ => ⟨sOut, sErr, sNs, none, rfl, h1, h2⟩,
                  fun _ => by simp⟩, ?_⟩
                intro o e n m h
                injection h with ho he hn hm
                subst hn
                rw [if_pos hflag]
      · rw [if_neg hflag]
        cases mt with
        | none =>
            refine ⟨⟨fun hmem => ?_, fun hex => ?_⟩, ?_⟩
            · simp at hmem
            · obtain ⟨o, e, n, m, h, h1, h2⟩ := hex
              injection h with ho he hn hm
              subst hn
              exact absurd (Bool.and_eq_true_iff.mpr ⟨h1, h2⟩) hflag
            · intro o e n m h
              injection h with ho he hn hm
              subst hn
              rw [if_neg hflag]
        | some t0 =>
            refine ⟨⟨fun hmem => ?_, fun hex => ?_⟩, ?_⟩
            · simp at hmem
            · obtain ⟨o, e, n, m, h, h1, h2⟩ := hex
              injection h with ho he hn hm
              subst hn
              exact absurd (Bool.and_eq_true_iff.mpr ⟨h1, h2⟩) hflag
            · intro o e n m h
              injection h with ho he hn hm
              subst hn
              rw [if_neg hflag]

/-- C8 witness: a completing script without `main`, loaded with the flag
off, produces one body execution and no `main` call. -/
theorem c8_witness :
    (Event.callMain ∈ (exLoader.load_module exFsGood [] Streams.empty).events ↔
      ∃ out errOut ns mtr, exFsGood.behavior = .completes out errOut ns mtr ∧
        exLoader.run_main = true ∧ hasMain ns = true) ∧
    (exLoader.load_module exFsGood [] Streams.empty).events
      = if exLoader.run_main && hasMain [("x", 2)]
        then [Event.execBody, Event.callMain] else [Event.execBody] :=
  ⟨(c8_entrypoint_iff exLoader exFsGood [] Streams.empty _ rfl).1,
    (c8_entrypoint_iff exLoader exFsGood [] Streams.empty _ rfl).2
      ["hello"] [] [("x", 2)] none rfl⟩

/-- C2 (evaluation of the code at the failing input): a watching tick
with `use_py_console = true` on a script that prints "hello" does run
the load attempt inside an `OutputCapture` scope — the text lands in the
capture buffer — but `modal` never calls `get_output` and never reads
`use_py_console`, so afterwards the host-visible console streams are
exactly what they were before the tick: the captured text is discarded,
not forwarded. -/
theorem c2_tick_discards_captured_output :
    (SW_OT_WatchStart_modal exDriver exFsGood .timerEvt).2.2
      = [Event.execBody] ∧
    (SW_OT_WatchStart_modal exDriver exFsGood .timerEvt).1.streams.capOut
      = ["hello"] ∧
    (SW_OT_WatchStart_modal exDriver exFsGood .timerEvt).1.streams.origOut
      = exDriver.streams.origOut ∧
    (SW_OT_WatchStart_modal exDriver exFsGood .timerEvt).1.streams.origErr
      = exDriver.streams.origErr ∧
    exDriver.settings.use_py_console = true := by
  decide

/-- C5: the force-reload flag is one-shot — on a watching tick with the
flag set it is cleared and `load_module` runs unconditionally.  Given an
unchanged file (mtime not above the last-seen value) and a completing
script: a plain tick executes the script zero times, while requesting a
reload and then ticking once executes it exactly once and leaves the
flag cleared. -/
theorem c5_force_reload_one_shot
    (d : DriverState) (fs : FS) (ld : ScriptWatcherLoader) (t : Nat)
    (out errOut : List String) (ns : NS)
    (hrun : d.settings.running = true)
    (hnoreq : d.settings.reload = false)
    (hld : d.loader = some ld)
    (hm : fs.mtime = some t) (hun : t ≤ ld.last_mtime)
    (hb : fs.behavior = .completes out errOut ns none) :
    ((SW_OT_WatchStart_modal d fs .timerEvt).2.2).count Event.execBody = 0 ∧
    ((SW_OT_WatchStart_modal (SW_OT_Reload_execute d).1 fs
      .timerEvt).2.2).count Event.execBody = 1 ∧
    (SW_OT_WatchStart_modal (SW_OT_Reload_execute d).1 fs
      .timerEvt).1.settings.reload = false := by
  rcases fs with ⟨isf, mt, beh⟩
  cases hm
  cases hb
  have hnl : ¬ (ld.last_mtime < t) := by omega
  simp only [SW_OT_WatchStart_modal, SW_OT_Reload_execute,
    ScriptWatcherLoader.check_reload, hrun, hnoreq, hld, hnl,
    Bool.true_eq_false, Bool.false_eq_true, if_false, eq_self_iff_true,
    if_true]
  dsimp only [ScriptWatcherLoader.load_module]
  by_cases hflag : (ld.run_main && hasMain ns) = true
  · rw [if_pos hflag]
    exact ⟨rfl, rfl, trivial⟩
  · rw [if_neg hflag]
    exact ⟨rfl, rfl, trivial⟩

/-- C5 witness: the statement at a concrete watching driver state with
an unchanged file. -/
theorem c5_witness :
    ((SW_OT_WatchStart_modal exDriver exFsSame .timerEvt).2.2).count
      Event.execBody = 0 ∧
    ((SW_OT_WatchStart_modal (SW_OT_Reload_execute exDriver).1 exFsSame
      .timerEvt).2.2).count Event.execBody = 1 ∧
    (SW_OT_WatchStart_modal (SW_OT_Reload_execute exDriver).1 exFsSame
      .timerEvt).1.settings.reload = false :=
  c5_force_reload_one_shot exDriver exFsSame exLoader 3 [] [] [("x", 2)]
    rfl rfl rfl rfl (by decide) rfl

/-- C6: `SW_OT_WatchStart.execute` is a no-op returning `CANCELLED` when
already running; fails with the "Script file not found" report and no
state change when the target file does not exist; otherwise performs one
synchronous initial load — if it fails, the request returns `CANCELLED`,
no timer is registered and `running` stays false; if it succeeds, the
timer is registered, `running` becomes true and `RUNNING_MODAL` is
returned. -/
theorem c6_watch_start_transitions (d : DriverState) (fs : FS) :
    (d.settings.running = true →
      SW_OT_WatchStart_execute d fs = (d, .cancelled, [])) ∧
    (d.settings.running = false → fs.isfile = false →
      SW_OT_WatchStart_execute d fs
        = (d, .cancelled, ["Script file not found"])) ∧
    (d.settings.running = false → fs.isfile = true →
      loadSucceeds
        (ScriptWatcherLoader.create d.settings.filepath d.settings.run_main)
        fs = false →
      (SW_OT_WatchStart_execute d fs).1.settings.running = false ∧
      (SW_OT_WatchStart_execute d fs).1.timer = d.timer ∧
      (SW_OT_WatchStart_execute d fs).2.1 = .cancelled) ∧
    (d.settings.running = false → fs.isfile = true →
      loadSucceeds
        (ScriptWatcherLoader.create d.settings.filepath d.settings.run_main)
        fs = true →
      (SW_OT_WatchStart_execute d fs).1.settings.running = true ∧
      (SW_OT_WatchStart_execute d fs).1.timer = true ∧
      (SW_OT_WatchStart_execute d fs).2.1 = .runningModal) := by
  refine ⟨fun h1 => ?_, fun h1 h2 => ?_, fun h1 h2 h3 => ?_, fun h1 h2 h3 => ?_⟩
  · dsimp only [SW_OT_WatchStart_execute]
    rw [h1, if_pos rfl]
  · dsimp only [SW_OT_WatchStart_execute]
    rw [h1, h2, if_neg (by decide), if_pos rfl]
  · dsimp only [SW_OT_WatchStart_execute]
    rw [h1, h2, if_neg (by decide), if_neg (by decide)]
    rw [show ((ScriptWatcherLoader.create d.settings.filepath
        d.settings.run_main).load_module fs d.mods
        ((OutputCapture.create d.streams).1.enter
          (OutputCapture.create d.streams).2)).ok = false from
      (load_ok_indep _ _ _ _ _ _).trans h3]
    rw [if_pos rfl]
    exact ⟨h1, rfl, rfl⟩
  · dsimp only [SW_OT_WatchStart_execute]
    rw [h1, h2, if_neg (by decide), if_neg (by decide)]
    rw [show ((ScriptWatcherLoader.create d.settings.filepath
        d.settings.run_main).load_module fs d.mods
        ((OutputCapture.create d.streams).1.enter
          (OutputCapture.create d.streams).2)).ok = true from
      (load_ok_indep _ _ _ _ _ _).trans h3]
    rw [if_neg (by decide)]
    exact ⟨rfl, rfl, rfl⟩

/-- C6 witness: starting on a missing file fails with the report, and
starting on a present file with a failing script returns `CANCELLED`
with `running` still false and no timer. -/
theorem c6_witness :
    SW_OT_WatchStart_execute exStopped ⟨false, none, .specNone⟩
      = (exStopped, .cancelled, ["Script file not found"]) ∧
    ((SW_OT_WatchStart_execute exStopped exFsBoom).1.settings.running
        = false ∧
      (SW_OT_WatchStart_execute exStopped exFsBoom).1.timer
        = exStopped.timer ∧
      (SW_OT_WatchStart_execute exStopped exFsBoom).2.1 = .cancelled) :=
  ⟨(c6_watch_start_transitions exStopped ⟨false, none, .specNone⟩).2.1
      rfl rfl,
    (c6_watch_start_transitions exStopped exFsBoom).2.2.1
      rfl rfl (by decide)⟩

/-- One host stimulus delivered while `running` is false causes no load
event, leaves `running` false, leaves the loader, registry and streams
untouched, either leaves the timer alone or deregisters it, and on a
timer event always deregisters it (the `modal` cancellation path runs
before any load attempt). -/
theorem stopped_step (fs : FS) (d : DriverState) (e : HostEvent)
    (h : d.settings.running = false) :
    (hostStep fs d e).2 = [] ∧
    (hostStep fs d e).1.settings.running = false ∧
    ((hostStep fs d e).1.timer = d.timer ∨ (hostStep fs d e).1.timer = false) ∧
    (e = .tickTimer → (hostStep fs d e).1.timer = false) ∧
    (hostStep fs d e).1.streams = d.streams ∧
    (hostStep fs d e).1.mods = d.mods ∧
    (hostStep fs d e).1.loader = d.loader := by
  cases e with
  | tickTimer =>
      dsimp only [hostStep, SW_OT_WatchStart_modal, SW_OT_WatchStart_cancel]
      rw [h, if_pos rfl]
      exact ⟨rfl, rfl, Or.inr rfl, fun _ => rfl, rfl, rfl, rfl⟩
  | pressStop =>
      dsimp only [hostStep, SW_OT_WatchEnd_execute]
      exact ⟨rfl, rfl, Or.inl rfl, fun hc => absurd hc (by decide), rfl, rfl, rfl⟩
  | pressReload =>
      dsimp only [hostStep, SW_OT_Reload_execute]
      exact ⟨rfl, h, Or.inl rfl, fun hc => absurd hc (by decide), rfl, rfl, rfl⟩

/-- Once `running` is false, any sequence of host stimuli produces no
load event, keeps `running` false, never re-registers a deregistered
timer, deregisters the timer as soon as a timer event arrives, and
leaves streams, registry and loader untouched. -/
theorem stopped_run_invariant (fs : FS) (es : List HostEvent) :
    ∀ d : DriverState, d.settings.running = false →
      (runEvents fs d es).2 = [] ∧
      (runEvents fs d es).1.settings.running = false ∧
      (d.timer = false → (runEvents fs d es).1.timer = false) ∧
      (HostEvent.tickTimer ∈ es → (runEvents fs d es).1.timer = false) ∧
      (runEvents fs d es).1.streams = d.streams ∧
      (runEvents fs d es).1.mods = d.mods ∧
      (runEvents fs d es).1.loader = d.loader := by
  induction es with
  | nil =>
      intro d h
      exact ⟨rfl, h, fun ht => ht, fun hm => absurd hm (by simp), rfl, rfl, rfl⟩
  | cons e rest ih =>
      intro d h
      obtain ⟨he, hrun, htim, htick, hst, hmo, hlo⟩ := stopped_step fs d e h
      obtain ⟨ih1, ih2, ih3, ih4, ih5, ih6, ih7⟩ := ih (hostStep fs d e).1 hrun
      dsimp only [runEvents]
      refine ⟨?_, ih2, ?_, ?_, ?_, ?_, ?_⟩
      · rw [he, ih1]
        rfl
      · intro ht
        apply ih3
        rcases htim with h1 | h1
        · rw [h1, ht]
        · exact h1
      · intro hm
        rcases List.mem_cons.mp hm with heq | hm'
        · exact ih3 (htick heq.symm)
        · exact ih4 hm'
      · rw [ih5, hst]
      · rw [ih6, hmo]
      · rw [ih7, hlo]

/-- C9: after a stop request (`SW_OT_WatchEnd.execute`) clears the
running flag, no later host stimulus ever causes a load or reload-check
execution: no load events occur, `running` stays false, loader, registry
and streams are untouched, and the first timer event that arrives makes
`modal` cancel — deregistering the timer — before any load attempt. -/
theorem c9_stop_safety (fs : FS) (d : DriverState) (es : List HostEvent) :
    (runEvents fs (SW_OT_WatchEnd_execute d).1 es).2 = [] ∧
    (runEvents fs (SW_OT_WatchEnd_execute d).1 es).1.settings.running
      = false ∧
    (runEvents fs (SW_OT_WatchEnd_execute d).1 es).1.streams
      = (SW_OT_WatchEnd_execute d).1.streams ∧
    (HostEvent.tickTimer ∈ es →
      (runEvents fs (SW_OT_WatchEnd_execute d).1 es).1.timer = false) := by
  obtain ⟨h1, h2, h3, h4, h5, h6, h7⟩ :=
    stopped_run_invariant fs es (SW_OT_WatchEnd_execute d).1 rfl
  exact ⟨h1, h2, h5, h4⟩

/-- C9 witness: stop the watching example driver, then deliver a manual
reload request followed by a timer event — no load happens and the
timer is deregistered. -/
theorem c9_witness :
    (runEvents exFsGood (SW_OT_WatchEnd_execute exDriver).1
      [HostEvent.pressReload, HostEvent.tickTimer]).2 = [] ∧
    (runEvents exFsGood (SW_OT_WatchEnd_execute exDriver).1
      [HostEvent.pressReload, HostEvent.tickTimer]).1.timer = false :=
  ⟨(c9_stop_safety exFsGood exDriver
      [HostEvent.pressReload, HostEvent.tickTimer]).1,
    (c9_stop_safety exFsGood exDriver
      [HostEvent.pressReload, HostEvent.tickTimer]).2.2.2 (by decide)⟩

end SW
